import Mathlib

/-!
Shallow embedding of the websocket message-relay server (src/main.go) and
verification of its specification claims.

The embedding models:
- the JWT authentication layer (`init`, `validateJWTToken`) with the external
  golang-jwt library modelled at its documented interface;
- the MongoDB-backed sequence generator (`getNextSequence`) with the store as
  an association list and `FindOneAndUpdate` + `$inc` as an atomic step;
- message validation and persistence (`InsertMessage`);
- the per-connection websocket session (`websocketHandler`) as an explicit
  trace-producing state machine over a list of inbound events.
-/

/-- Byte sequences (Go `[]byte`), modelled as lists of naturals (each < 256 for
well-formed data). -/
abbrev Bytes := List Nat

/-- UTF-8 encoding of a single character, byte by byte. Go's `[]byte(s)`
conversion yields the UTF-8 bytes of the string. -/
def utf8Encode (c : Char) : Bytes :=
  let n := c.toNat
  if n < 0x80 then [n]
  else if n < 0x800 then [0xC0 + n / 0x40, 0x80 + n % 0x40]
  else if n < 0x10000 then [0xE0 + n / 0x1000, 0x80 + (n / 0x40) % 0x40, 0x80 + n % 0x40]
  else [0xF0 + n / 0x40000, 0x80 + (n / 0x1000) % 0x40, 0x80 + (n / 0x40) % 0x40, 0x80 + n % 0x40]

/-- Go's `[]byte(s)`: the UTF-8 bytes of a string. -/
def stringToBytes (s : String) : Bytes :=
  (s.data.map utf8Encode).flatten

/-- Value of one standard-alphabet base64 character (`A-Za-z0-9+/`), `none` for
anything else. -/
def b64Val (c : Char) : Option Nat :=
  if 'A' ≤ c ∧ c ≤ 'Z' then some (c.toNat - 65)
  else if 'a' ≤ c ∧ c ≤ 'z' then some (c.toNat - 97 + 26)
  else if '0' ≤ c ∧ c ≤ '9' then some (c.toNat - 48 + 52)
  else if c = '+' then some 62
  else if c = '/' then some 63
  else none

/-- Decode a padded base64 character stream four characters at a time, as Go's
`base64.StdEncoding.DecodeString` does (padding `=` allowed only in the final
quantum). -/
def b64DecodeChunks : List Char → Option Bytes
  | [] => some []
  | c1 :: c2 :: c3 :: c4 :: rest =>
    match b64Val c1, b64Val c2 with
    | some v1, some v2 =>
      if c3 = '=' ∧ c4 = '=' ∧ rest = [] then
        some [v1 * 4 + v2 / 16]
      else
        match b64Val c3 with
        | some v3 =>
          if c4 = '=' ∧ rest = [] then
            some [v1 * 4 + v2 / 16, (v2 % 16) * 16 + v3 / 4]
          else
            match b64Val c4, b64DecodeChunks rest with
            | some v4, some tail =>
              some ([v1 * 4 + v2 / 16, (v2 % 16) * 16 + v3 / 4, (v3 % 4) * 64 + v4] ++ tail)
            | _, _ => none
        | none => none
    | _, _ => none
  | _ => none

/-- Go's `base64.StdEncoding.DecodeString`: decode the whole string, `none` on
malformed input. -/
def base64StdDecode (s : String) : Option Bytes :=
  b64DecodeChunks s.data

/-- The custom claim set of the repository (`JWTClaims` in src/main.go):
`id` (int64 user id) and `level`, on top of the registered claims. -/
structure JWTClaims where
  id : Int
  level : String
deriving DecidableEq

/-- A bearer token as seen through the golang-jwt library interface: whether it
parses as a compact JWT at all, which HMAC key its signature matches, whether
the registered-claims validation (expiry) fails, and the decoded claim set.
The empty / missing query-parameter token is the `wellFormed := false` case. -/
structure Token where
  wellFormed : Bool
  signedWith : Bytes
  expired : Bool
  claims : JWTClaims
deriving DecidableEq

deriving instance DecidableEq for Except

/-- Model of the external `jwt.ParseWithClaims(tokenString, claims, keyfunc)`
call at its documented interface: parse the compact form, verify the signature
against the key returned by the keyfunc, then validate registered claims
(expiry). Any failure yields an error; success yields the decoded claims with
`token.Valid` true. -/
def jwtParseWithClaims (tok : Token) (key : Bytes) : Except String JWTClaims :=
  if !tok.wellFormed then .error "token is malformed"
  else if tok.signedWith ≠ key then .error "token signature is invalid"
  else if tok.expired then .error "token is expired"
  else .ok tok.claims

/-- The base64 literal hardcoded inside `validateJWTToken` (src/main.go line 229). -/
def hardcodedKeyB64 : String := "2Pmtk92MEFb4Mi1ppbEwTRIutN89xTG4GB6S/blXZVA="

/-- The `init` func (src/main.go lines 25-33): read `JWT_SECRET_KEY` from the
environment; the empty value (unset) is fatal (`log.Fatal`, modelled as `none`);
otherwise the process-wide `jwtSecretKey` becomes its bytes. -/
def initJwtSecretKey (envValue : String) : Option Bytes :=
  if envValue = "" then none else some (stringToBytes envValue)

/-- Embedding of `validateJWTToken` (src/main.go lines 225-253): decodes the hardcoded
base64 literal and hands THAT key to `jwt.ParseWithClaims`; the startup-loaded
`jwtSecretKey` is never consulted. The final claims type-assertion and
`token.Valid` check coincide with the parse success path. -/
def validateJWTToken (tokenString : Token) : Except String JWTClaims :=
  match base64StdDecode hardcodedKeyB64 with
  | none => .error "base64 decode error"
  | some decodedKey =>
    match jwtParseWithClaims tokenString decodedKey with
    | .error e => .error e
    | .ok claims => .ok claims

/-- The byte value of the hardcoded verification key (decode of the literal). -/
def hardcodedKey : Bytes := (base64StdDecode hardcodedKeyB64).getD []

example : base64StdDecode hardcodedKeyB64 = some hardcodedKey := by decide
example : stringToBytes "testsecret" ≠ hardcodedKey := by decide
example : initJwtSecretKey "testsecret" = some (stringToBytes "testsecret") := by decide

/-- The MongoDB message document (`Message` struct, src/main.go lines 40-46).
Field names keep the Go names; integer fields are int64 in Go, modelled as
`Int` (MongoDB rejects `$inc`/insert overflow rather than wrapping, and no
arithmetic in this code can overflow an int64 starting from realistic states). -/
structure Message where
  ID : Int
  SenderID : Int
  RecipientID : Int
  Content : String
  Timestamp : Int
deriving DecidableEq

/-- The `sequences` collection: documents keyed by `_id` (the sequence name)
holding a numeric `sequence` field, modelled as an association list. The
int32/int64/float64 numeric variants that `getNextSequence` normalizes to
int64 are collapsed into `Int` (after a successful `$inc` the field is always
numeric, so the decode type-switch's default branch is unreachable on this
code path). -/
abbrev SeqStore := List (String × Int)

/-- Lookup of the sequence document with `_id = name`. -/
def seqLookup : SeqStore → String → Option Int
  | [], _ => none
  | (k, v) :: rest, name => if k = name then some v else seqLookup rest name

/-- Replace the value of the document keyed `name`; no document is created when
none exists (the code sets no upsert option on its `FindOneAndUpdate`). -/
def seqUpdate : SeqStore → String → Int → SeqStore
  | [], _, _ => []
  | (k, w) :: rest, name, v =>
    if k = name then (name, v) :: rest else (k, w) :: seqUpdate rest name v

/-- The driver's `FindOneAndUpdate(filter, {$inc: {sequence: 1}})` with
`ReturnDocument(After)` and no upsert: one atomic step that increments the
matched document and yields the post-update value, or fails with
`ErrNoDocuments` (`none`) when no document matches the filter. -/
def findOneAndUpdateInc (st : SeqStore) (name : String) : Option (Int × SeqStore) :=
  match seqLookup st name with
  | none => none
  | some v => some (v + 1, seqUpdate st name (v + 1))

/-- Embedding of `getNextSequence` (src/main.go lines 91-136): run the atomic
find-and-update; a decode failure (no matching document) surfaces the error;
otherwise return the post-increment `sequence` value. -/
def getNextSequence (st : SeqStore) (sequenceName : String) : Except String Int × SeqStore :=
  match findOneAndUpdateInc st sequenceName with
  | none => (.error "mongo: no documents in result", st)
  | some (v, st2) => (.ok v, st2)

/-- The validation error message of `InsertMessage` (src/main.go line 65). -/
def validationErrMsg : String :=
  "validation error: senderId, recipientId, and content are required"

/-- Embedding of `InsertMessage` (src/main.go lines 62-89): validate the stamped message,
allocate the next sequence value, overwrite `ID` and `Timestamp`, then insert.
`now` is the `time.Now().Unix()` reading of this call and `insertOk` the
success of the driver's `InsertOne` round-trip; the result carries the
returned error, the sequence store after the call, and the persisted-messages
collection after the call. -/
def InsertMessage (now : Int) (insertOk : Bool) (st : SeqStore) (db : List Message)
    (message : Message) : Except String Unit × SeqStore × List Message :=
  if message.SenderID = 0 ∨ message.RecipientID = 0 ∨ message.Content = "" then
    (.error validationErrMsg, st, db)
  else
    match getNextSequence st "message_sequence" with
    | (.error e, st2) => (.error e, st2, db)
    | (.ok seq, st2) =>
      let message := { message with ID := seq, Timestamp := now }
      if insertOk then (.ok (), st2, db ++ [message])
      else (.error "insert error", st2, db)

example :
    InsertMessage 100 true [("message_sequence", 0)] []
      { ID := 0, SenderID := 42, RecipientID := 7, Content := "hi", Timestamp := 0 } =
    (.ok (), [("message_sequence", 1)],
      [{ ID := 1, SenderID := 42, RecipientID := 7, Content := "hi", Timestamp := 100 }]) := by
  decide

example :
    InsertMessage 100 true [] []
      { ID := 0, SenderID := 42, RecipientID := 7, Content := "hi", Timestamp := 0 } =
    (.error "mongo: no documents in result", [], []) := by decide

/-- Outcome of one `conn.ReadMessage()` call in the receive loop: a read error,
or raw payload bytes together with the result of `json.Unmarshal` into the
`Message` struct on those bytes (the struct has no json tags, so Go's
case-insensitive field matching lets the client populate any of `id`,
`senderId`, `recipientId`, `content`, `timestamp`; an unparseable payload is
the `none` case). -/
inductive Inbound where
  | readFail
  | data (raw : String) (parsed : Option Message)
deriving DecidableEq

/-- Per-cycle environment: the server clock reading used for the timestamp,
and whether the `InsertOne` and `WriteMessage` round-trips of this cycle
succeed. -/
structure CycleEnv where
  now : Int
  insertOk : Bool
  writeOk : Bool
deriving DecidableEq

/-- Session-visible store state: the `sequences` collection and the persisted
`messages` collection. -/
structure SessionState where
  seqSt : SeqStore
  db : List Message
deriving DecidableEq

/-- Whether the receive loop continues after a cycle or the session is closed
(every `break` in the loop body, followed by `conn.Close()`). -/
inductive CycleOutcome where
  | closed
  | continued
deriving DecidableEq

/-- One iteration of the `websocketHandler` receive loop (src/main.go lines
182-222): read, parse, stamp `SenderID` from the connection's claims, persist
via `InsertMessage`, then echo the verbatim raw inbound bytes. The middle
component is the payload passed to `conn.WriteMessage` when that call is made
(`none` when no write is attempted). -/
def sessionCycle (claims : JWTClaims) (env : CycleEnv) (s : SessionState) (inbound : Inbound) :
    SessionState × Option String × CycleOutcome :=
  match inbound with
  | .readFail => (s, none, .closed)
  | .data raw parsed =>
    match parsed with
    | none => (s, none, .closed)
    | some message =>
      let message := { message with SenderID := claims.id }
      match InsertMessage env.now env.insertOk s.seqSt s.db message with
      | (.error _, st2, db2) => ({ seqSt := st2, db := db2 }, none, .closed)
      | (.ok _, st2, db2) =>
        if env.writeOk then ({ seqSt := st2, db := db2 }, some raw, .continued)
        else ({ seqSt := st2, db := db2 }, some raw, .closed)

/-- What one executed loop cycle produced: the echoed payload (if a write was
attempted) and whether the session continued. -/
structure CycleRecord where
  echo : Option String
  outcome : CycleOutcome
deriving DecidableEq

/-- The whole receive loop over a finite stream of read outcomes, each with its
cycle environment: returns the final store state and the records of the cycles
that actually ran. A cycle ending in `closed` stops the loop; later stream
elements are never read. -/
def sessionLoop (claims : JWTClaims) (s : SessionState) :
    List (CycleEnv × Inbound) → SessionState × List CycleRecord
  | [] => (s, [])
  | (env, inbound) :: rest =>
    match sessionCycle claims env s inbound with
    | (s2, echo, .closed) => (s2, [{ echo := echo, outcome := .closed }])
    | (s2, echo, .continued) =>
      let next := sessionLoop claims s2 rest
      (next.1, { echo := echo, outcome := .continued } :: next.2)

/-- Externally visible events of one `websocketHandler` invocation. -/
inductive HEvent where
  | validateToken (ok : Bool)
  | httpUnauthorized
  | upgradeAttempt (ok : Bool)
  | loopCycle
deriving DecidableEq

/-- Whether an event is a run of the authenticator. -/
def isAuthEvent : HEvent → Bool
  | .validateToken _ => true
  | _ => false

/-- Embedding of `websocketHandler` (src/main.go lines 163-223): validate the query-string
token; on failure answer 401 and return without upgrading; on success upgrade
(which itself may fail) and run the receive loop. The result is the event
trace and the final store state. -/
def websocketHandler (tok : Token) (upgradeOk : Bool)
    (inputs : List (CycleEnv × Inbound)) (s : SessionState) :
    List HEvent × SessionState :=
  match validateJWTToken tok with
  | .error _ => ([.validateToken false, .httpUnauthorized], s)
  | .ok claims =>
    if upgradeOk then
      let run := sessionLoop claims s inputs
      ([.validateToken true, .upgradeAttempt true] ++ run.2.map (fun _ => .loopCycle), run.1)
    else
      ([.validateToken true, .upgradeAttempt false], s)

/-- N successive allocations from `getNextSequence` against one name: `none`
as soon as one fails, otherwise the returned values in order and the final
store. This is the linearized history of N (possibly concurrent) callers,
each of whose allocation is a single atomic find-and-update step. -/
def allocN (name : String) : Nat → SeqStore → Option (List Int × SeqStore)
  | 0, st => some ([], st)
  | n + 1, st =>
    match getNextSequence st name with
    | (.error _, _) => none
    | (.ok v, st2) =>
      match allocN name n st2 with
      | none => none
      | some (vs, st3) => some (v :: vs, st3)

example :
    allocN "message_sequence" 3 [("message_sequence", 5)] =
      some ([6, 7, 8], [("message_sequence", 8)]) := by decide

/-- Test fixture: a claim set with subject id 42. -/
def claims42 : JWTClaims := { id := 42, level := "user" }

/-- Test fixture: a well-formed, unexpired token signed with the hardcoded key. -/
def tokenGood : Token :=
  { wellFormed := true, signedWith := hardcodedKey, expired := false, claims := claims42 }

/-- Test fixture: a well-formed, unexpired token signed with the startup
secret loaded from `JWT_SECRET_KEY=testsecret`. -/
def tokenEnvSigned : Token :=
  { wellFormed := true, signedWith := stringToBytes "testsecret", expired := false,
    claims := claims42 }

example :
    websocketHandler tokenEnvSigned true [] { seqSt := [], db := [] } =
      ([.validateToken false, .httpUnauthorized], { seqSt := [], db := [] }) := by decide

example :
    websocketHandler tokenGood true [] { seqSt := [], db := [] } =
      ([.validateToken true, .upgradeAttempt true], { seqSt := [], db := [] }) := by decide

/-- Looking up a key after updating it yields the new value, provided the key
was present (update never creates a document). -/
theorem seqLookup_seqUpdate (st : SeqStore) (name : String) (v w : Int)
    (h : seqLookup st name = some w) :
    seqLookup (seqUpdate st name v) name = some v := by
  induction st with
  | nil => simp [seqLookup] at h
  | cons p rest ih =>
    rcases p with ⟨k, u⟩
    by_cases hk : k = name
    · subst hk
      simp [seqLookup, seqUpdate]
    · simp only [seqLookup, seqUpdate, if_neg hk] at h ⊢
      exact ih h

/-- Behaviour of one allocation as a function of the current document. -/
theorem getNextSequence_found (st : SeqStore) (name : String) (v : Int)
    (h : seqLookup st name = some v) :
    getNextSequence st name = (.ok (v + 1), seqUpdate st name (v + 1)) := by
  simp [getNextSequence, findOneAndUpdateInc, h]

/-- Behaviour of one allocation when no document matches: the driver reports
`ErrNoDocuments` and the store is unchanged. -/
theorem getNextSequence_missing (st : SeqStore) (name : String)
    (h : seqLookup st name = none) :
    getNextSequence st name = (.error "mongo: no documents in result", st) := by
  simp [getNextSequence, findOneAndUpdateInc, h]

/-- Lemma: `InsertMessage` reads only the `SenderID`, `RecipientID` and `Content` of
its argument; the inbound `ID` and `Timestamp` are dead on every path. -/
theorem InsertMessage_congr (now : Int) (iok : Bool) (st : SeqStore) (db : List Message)
    (m1 m2 : Message) (hs : m1.SenderID = m2.SenderID)
    (hr : m1.RecipientID = m2.RecipientID) (hc : m1.Content = m2.Content) :
    InsertMessage now iok st db m1 = InsertMessage now iok st db m2 := by
  cases m1
  cases m2
  dsimp only at hs hr hc
  subst hs
  subst hr
  subst hc
  rfl

/-- The receive-loop cycle likewise ignores the parsed `ID`, `SenderID` and
`Timestamp` of the inbound payload. -/
theorem sessionCycle_congr (claims : JWTClaims) (env : CycleEnv) (s : SessionState)
    (raw : String) (m1 m2 : Message) (hr : m1.RecipientID = m2.RecipientID)
    (hc : m1.Content = m2.Content) :
    sessionCycle claims env s (.data raw (some m1)) =
      sessionCycle claims env s (.data raw (some m2)) := by
  have key := InsertMessage_congr env.now env.insertOk s.seqSt s.db
    { m1 with SenderID := claims.id } { m2 with SenderID := claims.id } rfl hr hc
  simp only [sessionCycle]
  rw [key]

/-- Any message present after `InsertMessage` was already persisted or carries
the `SenderID` of the message handed to `InsertMessage`. -/
theorem mem_InsertMessage_db (now : Int) (iok : Bool) (st : SeqStore) (db : List Message)
    (m msg : Message) (hmem : msg ∈ (InsertMessage now iok st db m).2.2) :
    msg ∈ db ∨ (msg.SenderID = m.SenderID ∧ msg.Timestamp = now) := by
  unfold InsertMessage at hmem
  by_cases hval : m.SenderID = 0 ∨ m.RecipientID = 0 ∨ m.Content = ""
  · rw [if_pos hval] at hmem
    exact Or.inl hmem
  · rw [if_neg hval] at hmem
    rcases hg : getNextSequence st "message_sequence" with ⟨r, st2⟩
    rw [hg] at hmem
    cases r with
    | error e => exact Or.inl hmem
    | ok seq =>
      by_cases hio : iok
      · simp only [hio, if_true, List.mem_append, List.mem_singleton] at hmem
        rcases hmem with h | h
        · exact Or.inl h
        · subst h
          exact Or.inr ⟨rfl, rfl⟩
      · simp only [hio, if_false] at hmem
        exact Or.inl hmem

/-- The values a run of N successful allocations starting from stored value
`v0` must return: `v0+1, v0+2, ..., v0+N`. -/
def seqRangeList (v0 : Int) : Nat → List Int
  | 0 => []
  | n + 1 => (v0 + 1) :: seqRangeList (v0 + 1) n

/-- Every value in `seqRangeList v0 n` exceeds `v0`. -/
theorem seqRangeList_mem_gt (v0 : Int) (n : Nat) (x : Int)
    (hx : x ∈ seqRangeList v0 n) : v0 < x := by
  induction n generalizing v0 with
  | zero => simp [seqRangeList] at hx
  | succ k ih =>
    simp only [seqRangeList, List.mem_cons] at hx
    rcases hx with h | h
    · omega
    · have := ih (v0 + 1) h
      omega

/-- The expected allocation results are pairwise distinct. -/
theorem seqRangeList_nodup (v0 : Int) (n : Nat) : (seqRangeList v0 n).Nodup := by
  induction n generalizing v0 with
  | zero => simp [seqRangeList]
  | succ k ih =>
    simp only [seqRangeList, List.nodup_cons]
    refine ⟨fun hmem => ?_, ih (v0 + 1)⟩
    have := seqRangeList_mem_gt (v0 + 1) k (v0 + 1) hmem
    omega

/-- Receive-loop cycles never produce an authenticator event. -/
theorem loop_events_not_auth (recs : List CycleRecord) :
    (recs.map (fun _ => HEvent.loopCycle)).all (fun e2 => !isAuthEvent e2) = true := by
  induction recs with
  | nil => rfl
  | cons r rest ih => simp [isAuthEvent, ih]

/-- C1: the claim says signature verification uses the startup-loaded
`JWT_SECRET_KEY` secret. The code loads that secret fatally at startup but
then verifies every token against the base64 literal hardcoded inside
`validateJWTToken`: with `JWT_SECRET_KEY=testsecret`, a well-formed unexpired
token signed with the startup secret is rejected, while one signed with the
hardcoded key is accepted even though it was not signed with the startup
secret. -/
theorem C1_verification_ignores_startup_secret :
    initJwtSecretKey "testsecret" = some (stringToBytes "testsecret") ∧
    stringToBytes "testsecret" ≠ hardcodedKey ∧
    validateJWTToken tokenEnvSigned = .error "token signature is invalid" ∧
    validateJWTToken tokenGood = .ok claims42 ∧
    tokenGood.signedWith ≠ stringToBytes "testsecret" := by decide

/-- C8 counterexample: the first allocation against a name with no existing
counter document does not create it; it fails with the driver's
no-document error and leaves the store unchanged. -/
theorem C8_first_use_fails_counterexample :
    getNextSequence [] "message_sequence" =
      (.error "mongo: no documents in result", []) := by decide

/-- C8 (amended): the named counter is NOT created implicitly on first use —
`FindOneAndUpdate` is issued without an upsert option, so an allocation
against an absent document fails with `ErrNoDocuments` and changes nothing;
only once the document exists (seeded externally) does allocation succeed. -/
theorem C8_no_implicit_creation (st : SeqStore) (name : String) :
    (seqLookup st name = none →
      getNextSequence st name = (.error "mongo: no documents in result", st)) ∧
    (∀ v0, seqLookup st name = some v0 →
      getNextSequence st name = (.ok (v0 + 1), seqUpdate st name (v0 + 1))) :=
  ⟨getNextSequence_missing st name, fun v0 h => getNextSequence_found st name v0 h⟩

/-- Witness for C8: first use against the empty store fails; after seeding the
document at 0, allocation succeeds with value 1. -/
theorem C8_no_implicit_creation_witness :
    getNextSequence [] "message_sequence" = (.error "mongo: no documents in result", []) ∧
    getNextSequence [("message_sequence", 0)] "message_sequence" =
      (.ok 1, [("message_sequence", 1)]) :=
  ⟨(C8_no_implicit_creation [] "message_sequence").1 (by decide),
    (C8_no_implicit_creation [("message_sequence", 0)] "message_sequence").2 0 (by decide)⟩

/-- Test fixture: a verified claim set with subject id 0 (a token without an
`id` claim decodes to the zero value). -/
def claims0 : JWTClaims := { id := 0, level := "user" }

/-- Test fixture: cycle environment where the store and channel behave. -/
def envOkCycle : CycleEnv := { now := 100, insertOk := true, writeOk := true }

/-- Test fixture: store state with the counter seeded at 0 and no messages. -/
def stSeeded : SessionState := { seqSt := [("message_sequence", 0)], db := [] }

/-- Test fixture: a well-formed parsed payload with non-empty content,
non-zero recipient and a client-supplied sender id. -/
def payloadHi7 : Message :=
  { ID := 0, SenderID := 5, RecipientID := 7, Content := "hi", Timestamp := 0 }

/-- C3 counterexample: under an authenticated subject id of 0, a well-formed
payload with non-empty content and non-zero recipientId IS rejected at the
validation stage (the check in `InsertMessage` also requires the stamped
`senderId` to be non-zero), refuting "accepts every other payload". -/
theorem C3_subject_zero_rejected :
    sessionCycle claims0 envOkCycle stSeeded (.data "p" (some payloadHi7)) =
      (stSeeded, none, .closed) ∧
    InsertMessage envOkCycle.now envOkCycle.insertOk stSeeded.seqSt stSeeded.db
        { payloadHi7 with SenderID := claims0.id } =
      (.error validationErrMsg, stSeeded.seqSt, stSeeded.db) := by decide

/-- C3 (amended): validation rejects an inbound payload exactly when it is
malformed, has empty content, has zero recipientId, or the claims-stamped
senderId is zero; whenever the authenticated subject id is non-zero, every
well-formed payload with non-empty content and non-zero recipientId passes
the validation stage. -/
theorem C3_validation_characterization (claims : JWTClaims) (env : CycleEnv)
    (s : SessionState) (raw : String) (m : Message) :
    (sessionCycle claims env s (.data raw none) = (s, none, .closed)) ∧
    ((claims.id = 0 ∨ m.RecipientID = 0 ∨ m.Content = "") →
      InsertMessage env.now env.insertOk s.seqSt s.db { m with SenderID := claims.id } =
        (.error validationErrMsg, s.seqSt, s.db)) ∧
    (claims.id ≠ 0 → m.RecipientID ≠ 0 → m.Content ≠ "" →
      (InsertMessage env.now env.insertOk s.seqSt s.db { m with SenderID := claims.id }).1 ≠
        .error validationErrMsg) := by
  refine ⟨rfl, ?_, ?_⟩
  · intro hbad
    have hcond : ({ m with SenderID := claims.id } : Message).SenderID = 0 ∨
        ({ m with SenderID := claims.id } : Message).RecipientID = 0 ∨
        ({ m with SenderID := claims.id } : Message).Content = "" := by
      simpa using hbad
    simp [InsertMessage, if_pos hcond]
  · intro h1 h2 h3
    have hcond : ¬(({ m with SenderID := claims.id } : Message).SenderID = 0 ∨
        ({ m with SenderID := claims.id } : Message).RecipientID = 0 ∨
        ({ m with SenderID := claims.id } : Message).Content = "") := by
      simp [h1, h2, h3]
    simp only [InsertMessage, if_neg hcond]
    cases hl : seqLookup s.seqSt "message_sequence" with
    | none =>
      rw [getNextSequence_missing s.seqSt "message_sequence" hl]
      intro hcontra
      have : "mongo: no documents in result" = validationErrMsg := by
        simpa using hcontra
      exact absurd this (by decide)
    | some v =>
      rw [getNextSequence_found s.seqSt "message_sequence" v hl]
      by_cases hio : env.insertOk
      · simp [hio]
      · simp only [hio, if_false]
        intro hcontra
        have : "insert error" = validationErrMsg := by
          simpa using hcontra
        exact absurd this (by decide)

/-- Witness for C3 (amended): subject id 42, payload `hi`/recipient 7 passes
validation; subject id 0 with the same payload is rejected. -/
theorem C3_validation_characterization_witness :
    ((claims42.id = 0 ∨ payloadHi7.RecipientID = 0 ∨ payloadHi7.Content = "") →
      InsertMessage envOkCycle.now envOkCycle.insertOk stSeeded.seqSt stSeeded.db
          { payloadHi7 with SenderID := claims42.id } =
        (.error validationErrMsg, stSeeded.seqSt, stSeeded.db)) ∧
    (InsertMessage envOkCycle.now envOkCycle.insertOk stSeeded.seqSt stSeeded.db
        { payloadHi7 with SenderID := claims42.id }).1 ≠ .error validationErrMsg :=
  ⟨(C3_validation_characterization claims42 envOkCycle stSeeded "p" payloadHi7).2.1,
    (C3_validation_characterization claims42 envOkCycle stSeeded "p" payloadHi7).2.2
      (by decide) (by decide) (by decide)⟩

/-- C7: whenever the sequence allocation for `message_sequence` fails,
`InsertMessage` stops before the persistence step — the messages collection is
unchanged and no success is reported. -/
theorem C7_seq_failure_blocks_persist (now : Int) (iok : Bool) (st : SeqStore)
    (db : List Message) (m : Message) (e : String)
    (h : (getNextSequence st "message_sequence").1 = .error e) :
    (InsertMessage now iok st db m).2.2 = db ∧
    ∀ u, (InsertMessage now iok st db m).1 ≠ .ok u := by
  unfold InsertMessage
  by_cases hval : m.SenderID = 0 ∨ m.RecipientID = 0 ∨ m.Content = ""
  · rw [if_pos hval]
    exact ⟨rfl, fun u hc => by cases hc⟩
  · rw [if_neg hval]
    rcases hg : getNextSequence st "message_sequence" with ⟨r, st2⟩
    rw [hg] at h
    cases r with
    | error e2 => exact ⟨rfl, fun u hc => by cases hc⟩
    | ok seq => cases h

/-- Witness for C7: with an unseeded counter store the allocation fails and a
valid message is not persisted. -/
theorem C7_seq_failure_blocks_persist_witness :
    (InsertMessage 100 true [] [] payloadHi7).2.2 = [] ∧
    ∀ u, (InsertMessage 100 true [] [] payloadHi7).1 ≠ .ok u :=
  C7_seq_failure_blocks_persist 100 true [] [] payloadHi7
    "mongo: no documents in result" (by decide)

/-- C2: within one receive-loop cycle, two inbound payloads differing only in
their client-supplied `senderId` field are processed identically (same echo,
same stores, same outcome), and every newly persisted message carries the
authenticated claim set's subject id as its `senderId`. -/
theorem C2_sender_always_from_claims (claims : JWTClaims) (env : CycleEnv)
    (s : SessionState) (raw : String) (m : Message) (sid1 sid2 : Int) :
    sessionCycle claims env s (.data raw (some { m with SenderID := sid1 })) =
      sessionCycle claims env s (.data raw (some { m with SenderID := sid2 })) ∧
    ∀ msg, msg ∈ (sessionCycle claims env s (.data raw (some m))).1.db →
      msg ∈ s.db ∨ msg.SenderID = claims.id := by
  refine ⟨sessionCycle_congr claims env s raw _ _ rfl rfl, ?_⟩
  intro msg hmem
  simp only [sessionCycle] at hmem
  rcases hI : InsertMessage env.now env.insertOk s.seqSt s.db
      { m with SenderID := claims.id } with ⟨r, st2, db2⟩
  rw [hI] at hmem
  have hdb2 : msg ∈ db2 := by
    cases r with
    | error e => exact hmem
    | ok u => cases hwr : env.writeOk <;> simp [hwr] at hmem <;> exact hmem
  have := mem_InsertMessage_db env.now env.insertOk s.seqSt s.db
    { m with SenderID := claims.id } msg (by rw [hI]; exact hdb2)
  rcases this with h | ⟨h, _⟩
  · exact Or.inl h
  · exact Or.inr h

/-- The message persisted by the happy path of the concrete scenario. -/
def persistedMsg42 : Message :=
  { ID := 1, SenderID := 42, RecipientID := 7, Content := "hi", Timestamp := 100 }

/-- Witness for C2: in the concrete happy-path cycle the persisted message's
`senderId` is the authenticated subject id 42, not the payload's 5. -/
theorem C2_sender_always_from_claims_witness :
    persistedMsg42 ∈ stSeeded.db ∨ persistedMsg42.SenderID = claims42.id :=
  (C2_sender_always_from_claims claims42 envOkCycle stSeeded "p" payloadHi7 5 6).2
    persistedMsg42 (by decide)

/-- C10: the parser populates `ID` and `Timestamp` from client JSON (the
`Message` struct has no json tags, so case-insensitive matching applies), but
the cycle's behaviour is identical for two payloads differing only in those
fields, and on a successful persist `InsertMessage` overwrites `ID` with the
freshly allocated sequence value and `Timestamp` with the server clock. -/
theorem C10_client_id_timestamp_never_persisted (claims : JWTClaims) (env : CycleEnv)
    (s : SessionState) (raw : String) (m : Message) (id1 ts1 id2 ts2 : Int) :
    sessionCycle claims env s (.data raw (some { m with ID := id1, Timestamp := ts1 })) =
      sessionCycle claims env s (.data raw (some { m with ID := id2, Timestamp := ts2 })) ∧
    (∀ seq st2, getNextSequence s.seqSt "message_sequence" = (.ok seq, st2) →
      claims.id ≠ 0 → m.RecipientID ≠ 0 → m.Content ≠ "" → env.insertOk = true →
      (InsertMessage env.now env.insertOk s.seqSt s.db { m with SenderID := claims.id }).2.2 =
        s.db ++ [{ m with ID := seq, SenderID := claims.id, Timestamp := env.now }]) := by
  refine ⟨sessionCycle_congr claims env s raw _ _ rfl rfl, ?_⟩
  intro seq st2 hseq h1 h2 h3 hio
  have hcond : ¬(({ m with SenderID := claims.id } : Message).SenderID = 0 ∨
      ({ m with SenderID := claims.id } : Message).RecipientID = 0 ∨
      ({ m with SenderID := claims.id } : Message).Content = "") := by
    simp [h1, h2, h3]
  simp only [InsertMessage, if_neg hcond, hseq, hio, if_true]

/-- Witness for C10: the concrete happy-path persist appends exactly the
server-stamped document (id 1 from the counter, timestamp 100 from the clock). -/
theorem C10_client_id_timestamp_never_persisted_witness :
    (InsertMessage envOkCycle.now envOkCycle.insertOk stSeeded.seqSt stSeeded.db
        { payloadHi7 with SenderID := claims42.id }).2.2 =
      stSeeded.db ++ [{ payloadHi7 with ID := 1, SenderID := claims42.id, Timestamp := envOkCycle.now }] :=
  (C10_client_id_timestamp_never_persisted claims42 envOkCycle stSeeded "p" payloadHi7 3 4 5 6).2
    1 [("message_sequence", 1)] (by decide) (by decide) (by decide) (by decide) (by decide)

/-- C5: in every receive-loop cycle the echo write is attempted exactly when
that cycle's persistence succeeded, and the echoed payload is the verbatim raw
inbound bytes; on a read, parse, validation or store failure no echo is sent. -/
theorem C5_echo_iff_persisted (claims : JWTClaims) (env : CycleEnv) (s : SessionState)
    (raw : String) :
    (sessionCycle claims env s .readFail).2.1 = none ∧
    (sessionCycle claims env s (.data raw none)).2.1 = none ∧
    (∀ m, (InsertMessage env.now env.insertOk s.seqSt s.db { m with SenderID := claims.id }).1 =
        .ok () →
      (sessionCycle claims env s (.data raw (some m))).2.1 = some raw) ∧
    (∀ m e, (InsertMessage env.now env.insertOk s.seqSt s.db { m with SenderID := claims.id }).1 =
        .error e →
      (sessionCycle claims env s (.data raw (some m))).2.1 = none) := by
  refine ⟨rfl, rfl, ?_, ?_⟩
  · intro m h
    simp only [sessionCycle]
    rcases hI : InsertMessage env.now env.insertOk s.seqSt s.db
        { m with SenderID := claims.id } with ⟨r, st2, db2⟩
    rw [hI] at h
    cases r with
    | error e => cases h
    | ok u => cases hwr : env.writeOk <;> simp [hwr]
  · intro m e h
    simp only [sessionCycle]
    rcases hI : InsertMessage env.now env.insertOk s.seqSt s.db
        { m with SenderID := claims.id } with ⟨r, st2, db2⟩
    rw [hI] at h
    cases r with
    | error e2 => simp
    | ok u => cases h

/-- Witness for C5: the happy-path cycle echoes the raw payload bytes, and the
same payload under a failing store echoes nothing. -/
theorem C5_echo_iff_persisted_witness :
    (sessionCycle claims42 envOkCycle stSeeded (.data "rawbytes" (some payloadHi7))).2.1 =
      some "rawbytes" ∧
    (sessionCycle claims42 envOkCycle { seqSt := [], db := [] }
        (.data "rawbytes" (some payloadHi7))).2.1 = none :=
  ⟨(C5_echo_iff_persisted claims42 envOkCycle stSeeded "rawbytes").2.2.1 payloadHi7 (by decide),
    (C5_echo_iff_persisted claims42 envOkCycle { seqSt := [], db := [] } "rawbytes").2.2.2
      payloadHi7 "mongo: no documents in result" (by decide)⟩

/-- Loop cycles contain no authenticator events (filter form). -/
theorem loop_events_filter_auth (recs : List CycleRecord) :
    (recs.map (fun _ => HEvent.loopCycle)).filter isAuthEvent = [] := by
  induction recs with
  | nil => rfl
  | cons r rest ih => simp [isAuthEvent, ih]

/-- C4: with the counter document present at value `v0`, one allocation
atomically advances the stored value by exactly 1 and returns the new stored
value, and any run of N successful allocations leaves the stored value at
`v0 + N` and returns the pairwise-distinct values `v0+1, ..., v0+N`. -/
theorem C4_alloc_monotone_unique (st : SeqStore) (name : String) (v0 : Int) (n : Nat)
    (h : seqLookup st name = some v0) :
    getNextSequence st name = (.ok (v0 + 1), seqUpdate st name (v0 + 1)) ∧
    ∃ vs st2, allocN name n st = some (vs, st2) ∧
      seqLookup st2 name = some (v0 + n) ∧ vs = seqRangeList v0 n ∧ vs.Nodup := by
  refine ⟨getNextSequence_found st name v0 h, ?_⟩
  induction n generalizing st v0 with
  | zero => exact ⟨[], st, rfl, by simpa using h, rfl, List.nodup_nil⟩
  | succ k ih =>
    have hstep := getNextSequence_found st name v0 h
    have h2 : seqLookup (seqUpdate st name (v0 + 1)) name = some (v0 + 1) :=
      seqLookup_seqUpdate st name (v0 + 1) v0 h
    obtain ⟨vs, st2, ha, hl, hv, hnd⟩ := ih (seqUpdate st name (v0 + 1)) (v0 + 1) h2
    refine ⟨(v0 + 1) :: vs, st2, ?_, ?_, ?_, ?_⟩
    · simp [allocN, hstep, ha]
    · rw [hl]
      congr 1
      push_cast
      ring
    · rw [hv]
      rfl
    · rw [hv]
      simp only [List.nodup_cons]
      refine ⟨fun hm => ?_, seqRangeList_nodup (v0 + 1) k⟩
      have := seqRangeList_mem_gt (v0 + 1) k (v0 + 1) hm
      omega

/-- Witness for C4: three allocations from a counter at 5 return 6, 7, 8 and
leave the stored value at 8. -/
theorem C4_alloc_monotone_unique_witness :
    getNextSequence [("message_sequence", 5)] "message_sequence" =
      (.ok (5 + 1), seqUpdate [("message_sequence", 5)] "message_sequence" (5 + 1)) ∧
    ∃ vs st2, allocN "message_sequence" 3 [("message_sequence", 5)] = some (vs, st2) ∧
      seqLookup st2 "message_sequence" = some ((5 : Int) + (3 : Nat)) ∧
      vs = seqRangeList 5 3 ∧ vs.Nodup :=
  C4_alloc_monotone_unique [("message_sequence", 5)] "message_sequence" 5 3 (by decide)

/-- C9: every failure in the loop body — read error, parse error, validation /
sequence / persist error (any `InsertMessage` error), or write error — ends
the cycle in `closed`, and a closed cycle terminates the whole session: the
remaining input stream is never read, and no further persist or write
happens (the final state is the closing cycle's state). -/
theorem C9_any_failure_closes_session (claims : JWTClaims) (env : CycleEnv)
    (s : SessionState) :
    (sessionCycle claims env s .readFail).2.2 = .closed ∧
    (∀ raw, (sessionCycle claims env s (.data raw none)).2.2 = .closed) ∧
    (∀ raw m e,
      (InsertMessage env.now env.insertOk s.seqSt s.db { m with SenderID := claims.id }).1 =
        .error e →
      (sessionCycle claims env s (.data raw (some m))).2.2 = .closed) ∧
    (∀ raw m, env.writeOk = false →
      (sessionCycle claims env s (.data raw (some m))).2.2 = .closed) ∧
    (∀ inbound s2 echo rest, sessionCycle claims env s inbound = (s2, echo, .closed) →
      sessionLoop claims s ((env, inbound) :: rest) =
        (s2, [{ echo := echo, outcome := .closed }])) := by
  refine ⟨rfl, fun raw => rfl, ?_, ?_, ?_⟩
  · intro raw m e h
    simp only [sessionCycle]
    rcases hI : InsertMessage env.now env.insertOk s.seqSt s.db
        { m with SenderID := claims.id } with ⟨r, st2, db2⟩
    rw [hI] at h
    cases r with
    | error e2 => simp
    | ok u => cases h
  · intro raw m hwr
    simp only [sessionCycle]
    rcases hI : InsertMessage env.now env.insertOk s.seqSt s.db
        { m with SenderID := claims.id } with ⟨r, st2, db2⟩
    cases r with
    | error e2 => simp
    | ok u => simp [hwr]
  · intro inbound s2 echo rest hc
    simp [sessionLoop, hc]

/-- Witness for C9: a persist failure (unseeded counter) closes the concrete
session, and the closed cycle stops the loop with one executed record. -/
theorem C9_any_failure_closes_session_witness :
    (sessionCycle claims42 envOkCycle { seqSt := [], db := [] }
        (.data "p" (some payloadHi7))).2.2 = .closed ∧
    sessionLoop claims42 { seqSt := [], db := [] }
        [(envOkCycle, .data "p" (some payloadHi7)), (envOkCycle, .readFail)] =
      ({ seqSt := [], db := [] }, [{ echo := none, outcome := .closed }]) :=
  ⟨(C9_any_failure_closes_session claims42 envOkCycle { seqSt := [], db := [] }).2.2.1
      "p" payloadHi7 "mongo: no documents in result" (by decide),
    (C9_any_failure_closes_session claims42 envOkCycle { seqSt := [], db := [] }).2.2.2.2
      (.data "p" (some payloadHi7)) { seqSt := [], db := [] } none
      [(envOkCycle, .readFail)] (by decide)⟩

/-- C6: authentication runs exactly once per connection and is the first thing
the handler does; on an invalid token (missing, malformed, expired, badly
signed) the handler answers 401 and never attempts the upgrade, so no channel
is established and the store is untouched; on a valid token the upgrade is
attempted and, when it succeeds, the session loop runs — whose events never
include another authenticator run. -/
theorem C6_auth_once_gates_upgrade (tok : Token) (uok : Bool)
    (inputs : List (CycleEnv × Inbound)) (s : SessionState) :
    ((websocketHandler tok uok inputs s).1.filter isAuthEvent).length = 1 ∧
    (∃ b rest2, (websocketHandler tok uok inputs s).1 = HEvent.validateToken b :: rest2 ∧
      rest2.all (fun e2 => !isAuthEvent e2) = true) ∧
    (∀ e, validateJWTToken tok = .error e →
      websocketHandler tok uok inputs s = ([.validateToken false, .httpUnauthorized], s)) ∧
    (∀ claims, validateJWTToken tok = .ok claims → uok = true →
      (websocketHandler tok uok inputs s).1 =
        .validateToken true :: .upgradeAttempt true ::
          (sessionLoop claims s inputs).2.map (fun _ => HEvent.loopCycle) ∧
      (websocketHandler tok uok inputs s).2 = (sessionLoop claims s inputs).1) := by
  cases hv : validateJWTToken tok with
  | error e0 =>
    refine ⟨?_, ?_, ?_, ?_⟩
    · simp [websocketHandler, hv, isAuthEvent]
    · exact ⟨false, [.httpUnauthorized], by simp [websocketHandler, hv], by simp [isAuthEvent]⟩
    · intro e he
      simp [websocketHandler, hv]
    · intro claims hc
      simp at hc
  | ok claims2 =>
    cases uok with
    | true =>
      refine ⟨?_, ?_, ?_, ?_⟩
      · simp [websocketHandler, hv, isAuthEvent, loop_events_filter_auth]
      · refine ⟨true, .upgradeAttempt true ::
          (sessionLoop claims2 s inputs).2.map (fun _ => HEvent.loopCycle), ?_, ?_⟩
        · simp [websocketHandler, hv]
        · simp [isAuthEvent, loop_events_not_auth]
      · intro e he
        simp at he
      · intro claims hc htrue
        injection hc with hceq
        subst hceq
        exact ⟨by simp [websocketHandler, hv], by simp [websocketHandler, hv]⟩
    | false =>
      refine ⟨?_, ?_, ?_, ?_⟩
      · simp [websocketHandler, hv, isAuthEvent]
      · exact ⟨true, [.upgradeAttempt false], by simp [websocketHandler, hv],
          by simp [isAuthEvent]⟩
      · intro e he
        simp at he
      · intro claims hc hfalse
        cases hfalse

/-- Witness for C6: the token signed with the startup secret (hence invalid to
this code) is rejected before any upgrade, and the hardcoded-key token is
authenticated once and enters the loop. -/
theorem C6_auth_once_gates_upgrade_witness :
    websocketHandler tokenEnvSigned true [] stSeeded =
      ([.validateToken false, .httpUnauthorized], stSeeded) ∧
    ((websocketHandler tokenGood true [] stSeeded).1 =
      .validateToken true :: .upgradeAttempt true ::
        (sessionLoop claims42 stSeeded []).2.map (fun _ => HEvent.loopCycle) ∧
      (websocketHandler tokenGood true [] stSeeded).2 = (sessionLoop claims42 stSeeded []).1) :=
  ⟨(C6_auth_once_gates_upgrade tokenEnvSigned true [] stSeeded).2.2.1
      "token signature is invalid" (by decide),
    (C6_auth_once_gates_upgrade tokenGood true [] stSeeded).2.2.2 claims42 (by decide) rfl⟩
